import Mathlib

/-!
Shallow embedding of the WhatsApp reports bot core: the keyword
classification engine (`WhatsAppClient.analyzeMessage`), the report
persistence pipeline (`WhatsAppClient.handleMessage` / `handleReport`,
`Database.addReport`, `Database.incrementChannelReports`,
`Database.upsertChannel`), the sequential message-queue processor
(`WhatsAppClient.processMessageQueue`), the Baileys connection-update
state machine (`BaileysClient.setupEventHandlers`), and the alert
threshold engine (`NotificationService.checkThresholds`).
Every definition is translated directly from the JavaScript source.
-/

namespace WhatsAppBot

/-- JS `haystack.startsWith(pat)` over character lists. -/
def startsWithL : List Char → List Char → Bool
  | _, [] => true
  | [], _ :: _ => false
  | c :: cs, p :: ps => c == p && startsWithL cs ps

/-- JS `haystack.includes(pat)`: substring containment over character lists
(`"".includes("")` is `true`, matching JS). -/
def includesL : List Char → List Char → Bool
  | [], p => startsWithL [] p
  | c :: rest, p => startsWithL (c :: rest) p || includesL rest p

/-- JS `String.prototype.toLowerCase` on the characters that actually occur in
the keyword sets (ASCII letters; Arabic has no case), i.e. `Char.toLower`
mapped over the characters. -/
def lowerL (s : List Char) : List Char := s.map Char.toLower

/-- The fixed report-keyword set of `WhatsAppClient` (whatsapp-client.js,
`this.reportKeywords`). -/
def reportKeywords : List String :=
  ["بلاغ", "تبليغ", "شكوى", "مشكلة", "انتهاك", "مخالفة",
   "report", "complaint", "violation", "abuse", "spam"]

/-- The fixed request-keyword set of `WhatsAppClient` (whatsapp-client.js,
`this.requestKeywords`). -/
def requestKeywords : List String :=
  ["طلب", "استفسار", "سؤال", "مساعدة", "دعم",
   "request", "help", "support", "question", "inquiry"]

/-- The spam-category keywords checked first in `analyzeMessage`. -/
def spamKeywords : List String := ["سبام", "spam"]

/-- The violation-category keywords checked second in `analyzeMessage`. -/
def violationKeywords : List String := ["انتهاك", "violation"]

/-- The inappropriate-category keywords checked third in `analyzeMessage`. -/
def inappropriateKeywords : List String := ["محتوى غير لائق", "inappropriate"]

/-- The urgent-class severity keywords of `analyzeMessage`. -/
def urgentKeywords : List String := ["عاجل", "urgent", "خطير"]

/-- The important-class severity keywords of `analyzeMessage`. -/
def importantKeywords : List String := ["مهم", "important"]

/-- Report categories stored in `reports.report_type`. -/
inductive ReportType where
  | spam
  | violation
  | inappropriate
  | general
  deriving DecidableEq, Repr

/-- Result record of `WhatsAppClient.analyzeMessage`. -/
structure Analysis where
  isReport : Bool
  isRequest : Bool
  severity : Nat
  reportType : ReportType
  deriving DecidableEq, Repr

/-- `WhatsAppClient.analyzeMessage` (whatsapp-client.js lines 112-140):
lowercase the body, test report/request keyword sets by substring, assign
severity 3 for urgent keywords else 2 for important keywords else 1, and
assign the report type by the fixed priority spam, violation,
inappropriate, general. -/
def analyzeMessage (messageBody : String) : Analysis :=
  let text := lowerL messageBody.toList
  let isReport := reportKeywords.any fun kw => includesL text (lowerL kw.toList)
  let isRequest := requestKeywords.any fun kw => includesL text (lowerL kw.toList)
  let severity : Nat :=
    if includesL text "عاجل".toList || includesL text "urgent".toList
        || includesL text "خطير".toList then 3
    else if includesL text "مهم".toList || includesL text "important".toList then 2
    else 1
  let reportType : ReportType :=
    if includesL text "سبام".toList || includesL text "spam".toList then .spam
    else if includesL text "انتهاك".toList || includesL text "violation".toList then .violation
    else if includesL text "محتوى غير لائق".toList || includesL text "inappropriate".toList then
      .inappropriate
    else .general
  { isReport := isReport, isRequest := isRequest, severity := severity, reportType := reportType }

/-- Some keyword of `kws` occurs as a substring of `text`. -/
def matchesAny (text : List Char) (kws : List String) : Bool :=
  kws.any fun kw => includesL text kw.toList

/-- Claim C6: for every content string, `analyzeMessage content` sets
`isReport` iff the lowercased content contains at least one report keyword
as a substring, and `isRequest` iff it contains at least one request
keyword; the two keyword sets are disjoint and the two classifications are
independent (the sample content matches both). -/
theorem analyzeMessage_isReport_isRequest_iff :
    (∀ content : String,
      ((analyzeMessage content).isReport = true ↔
        ∃ kw ∈ reportKeywords, includesL (lowerL content.toList) (lowerL kw.toList) = true) ∧
      ((analyzeMessage content).isRequest = true ↔
        ∃ kw ∈ requestKeywords, includesL (lowerL content.toList) (lowerL kw.toList) = true)) ∧
    (∀ kw ∈ reportKeywords, kw ∉ requestKeywords) ∧
    (analyzeMessage "report request").isReport = true ∧
    (analyzeMessage "report request").isRequest = true := by
  refine ⟨fun content => ⟨?_, ?_⟩, by decide, by decide, by decide⟩
  · simp [analyzeMessage, List.any_eq_true]
  · simp [analyzeMessage, List.any_eq_true]

/-- Witness for claim C6: `"spam"` is a report keyword, so a content
containing it classifies as a report. -/
theorem analyzeMessage_isReport_witness :
    (analyzeMessage "this is spam content").isReport = true :=
  (analyzeMessage_isReport_isRequest_iff.1 "this is spam content").1.mpr
    ⟨"spam", by decide, by decide⟩

/-- Claim C7: the report type produced by `analyzeMessage` follows the
fixed priority order spam, then violation, then inappropriate, then
general, determined by which category keyword sets match the lowercased
content. -/
theorem analyzeMessage_reportType_priority (content : String) :
    (analyzeMessage content).reportType =
      (if matchesAny (lowerL content.toList) spamKeywords then ReportType.spam
       else if matchesAny (lowerL content.toList) violationKeywords then ReportType.violation
       else if matchesAny (lowerL content.toList) inappropriateKeywords then
         ReportType.inappropriate
       else ReportType.general) := by
  simp [analyzeMessage, matchesAny, spamKeywords, violationKeywords, inappropriateKeywords,
    List.any_cons, List.any_nil, Bool.or_false]

/-- Claim C8: `analyzeMessage` assigns severity 3 if any urgent-class
keyword is present in the lowercased content, otherwise 2 if any
important-class keyword is present, otherwise 1; the second conjunct shows
that a message containing both an urgent and an important keyword yields
severity 3. -/
theorem analyzeMessage_severity_priority :
    (∀ content : String,
      (analyzeMessage content).severity =
        (if matchesAny (lowerL content.toList) urgentKeywords then 3
         else if matchesAny (lowerL content.toList) importantKeywords then 2
         else 1)) ∧
    (analyzeMessage "urgent and important news").severity = 3 := by
  refine ⟨fun content => ?_, by decide⟩
  simp [analyzeMessage, matchesAny, urgentKeywords, importantKeywords,
    List.any_cons, List.any_nil, Bool.or_false, or_assoc]

/-- `NotificationService.alertThresholds`: per-rule alert thresholds. -/
structure AlertThresholds where
  high_severity : Nat
  spam_reports : Nat
  channel_reports : Nat
  deriving DecidableEq, Repr

/-- The default thresholds set in the `NotificationService` constructor:
`high_severity: 1`, `spam_reports: 5`, `channel_reports: 10`. -/
def defaultAlertThresholds : AlertThresholds :=
  { high_severity := 1, spam_reports := 5, channel_reports := 10 }

/-- An alert appended by `NotificationService.checkThresholds` (its `type`,
`chatId` and `message` fields). -/
structure Alert where
  type : String
  chatId : String
  message : String
  deriving DecidableEq, Repr

/-- `NotificationService.checkThresholds(chatId, reportCount, reportType)`:
builds the list of alerts appended in one call.  Each of the three rules
appends its alert whenever its guard holds on the given counter value:
`high_severity_report` when `reportType === 'high_severity'` and
`reportCount >= alertThresholds.high_severity`; `spam_reports` when
`reportType === 'spam'` and `reportCount >= alertThresholds.spam_reports`;
`channel_reports` whenever `reportCount >= alertThresholds.channel_reports`.
Dispatching the alerts (`sendAlert`) is external I/O and not modelled. -/
def checkThresholds (t : AlertThresholds) (chatId : String) (reportCount : Nat)
    (reportType : String) : List Alert :=
  (if reportType = "high_severity" ∧ t.high_severity ≤ reportCount then
    [{ type := "high_severity_report", chatId := chatId,
       message := s!"تم تسجيل {reportCount} بلاغ عالي الخطورة في هذه القناة" }]
  else []) ++
  (if reportType = "spam" ∧ t.spam_reports ≤ reportCount then
    [{ type := "spam_reports", chatId := chatId,
       message := s!"تم تسجيل {reportCount} بلاغ سبام في هذه القناة" }]
  else []) ++
  (if t.channel_reports ≤ reportCount then
    [{ type := "channel_reports", chatId := chatId,
       message := s!"تم تسجيل {reportCount} بلاغ في هذه القناة" }]
  else [])

/-- The call to `checkThresholds` appends an alert of type `ty`. -/
def firesAlertType (alerts : List Alert) (ty : String) : Bool :=
  alerts.any fun a => a.type == ty

/-- Counterexample to claim C1: threshold firing is not edge-triggered on
crossing.  With the default thresholds, the `channel_reports` rule fires in
the cycle where the chat's counter reaches 10 (the crossing), and fires
again at the very next increment (counter 11), although the counter stayed
at or above the threshold — so `checkThresholds` does append a further
alert for the rule after the crossing cycle. -/
theorem checkThresholds_refires :
    firesAlertType (checkThresholds defaultAlertThresholds "chat1" 10 "general")
      "channel_reports" = true ∧
    firesAlertType (checkThresholds defaultAlertThresholds "chat1" 11 "general")
      "channel_reports" = true := by
  constructor <;> decide

/-- Claim C1 as amended: with the default thresholds, every rule of
`checkThresholds` is level-triggered: in any call, an alert for the rule is
appended exactly when the supplied counter is at or above the rule's
threshold (and the report type matches, for the typed rules), regardless
of any previous cycle — hence the rule re-fires on every subsequent
increment while the counter stays at or above the threshold. -/
theorem checkThresholds_level (chatId : String) (n : Nat) (rt : String) :
    (firesAlertType (checkThresholds defaultAlertThresholds chatId n rt)
        "channel_reports" = true ↔ 10 ≤ n) ∧
    (firesAlertType (checkThresholds defaultAlertThresholds chatId n rt)
        "spam_reports" = true ↔ rt = "spam" ∧ 5 ≤ n) ∧
    (firesAlertType (checkThresholds defaultAlertThresholds chatId n rt)
        "high_severity_report" = true ↔ rt = "high_severity" ∧ 1 ≤ n) := by
  refine ⟨?_, ?_, ?_⟩ <;>
    · simp only [firesAlertType, checkThresholds, defaultAlertThresholds, List.any_append]
      split_ifs <;> simp_all

/-- Witness for claim C1 (amended form): at counter 11, one increment past
the `channel_reports` crossing, the rule still fires. -/
theorem checkThresholds_level_witness :
    firesAlertType (checkThresholds defaultAlertThresholds "chat2" 11 "general")
      "channel_reports" = true :=
  (checkThresholds_level "chat2" 11 "general").1.mpr (by decide)

/-- Claim C9: the `high_severity` threshold defaults to 1, and whenever the
chat's qualifying-report counter (the count of its reports with severity at
least 2, supplied by the caller as `reportCount`) has reached 1 — i.e. from
the first qualifying report on — `checkThresholds` invoked for the
`high_severity` rule appends a `high_severity_report` alert. -/
theorem checkThresholds_high_severity_fires (chatId : String) (n : Nat) (h : 1 ≤ n) :
    defaultAlertThresholds.high_severity = 1 ∧
    firesAlertType (checkThresholds defaultAlertThresholds chatId n "high_severity")
      "high_severity_report" = true := by
  refine ⟨rfl, ?_⟩
  simp [firesAlertType, checkThresholds, defaultAlertThresholds, h]

/-- Witness for claim C9: the first qualifying report (counter 1) fires the
`high_severity` rule. -/
theorem checkThresholds_high_severity_witness :
    defaultAlertThresholds.high_severity = 1 ∧
    firesAlertType (checkThresholds defaultAlertThresholds "chat3" 1 "high_severity")
      "high_severity_report" = true :=
  checkThresholds_high_severity_fires "chat3" 1 (by decide)

/-- Connection configuration of `BaileysClient` (config.js `whatsapp`
section): `maxReconnectAttempts` and `reconnectInterval`. -/
structure ConnConfig where
  maxReconnectAttempts : Nat
  reconnectInterval : Nat
  deriving DecidableEq, Repr

/-- The values from config.js: `reconnectInterval: 5000`,
`maxReconnectAttempts: 10`. -/
def baileysConfig : ConnConfig :=
  { maxReconnectAttempts := 10, reconnectInterval := 5000 }

/-- The mutable connection fields of `BaileysClient`: `isConnected`,
`isConnecting`, `reconnectAttempts`, `qrCode`. -/
structure ConnState where
  isConnected : Bool
  isConnecting : Bool
  reconnectAttempts : Nat
  qrCode : Option String
  deriving DecidableEq, Repr

/-- The `BaileysClient` constructor state: disconnected, zero reconnect
attempts, no QR code. -/
def initConnState : ConnState :=
  { isConnected := false, isConnecting := false, reconnectAttempts := 0, qrCode := none }

/-- The `connection.update` events handled by
`BaileysClient.setupEventHandlers`: a QR code, `connection === 'close'`
(with the computed `shouldReconnect` flag), or `connection === 'open'`. -/
inductive ConnEvent where
  | gotQr (code : String)
  | closed (shouldReconnect : Bool)
  | opened
  deriving DecidableEq, Repr

/-- Side effects requested by the `connection.update` handler: the
`setTimeout` reconnect (with its delay in milliseconds) and
`startMessageProcessor`. -/
inductive ConnAction where
  | scheduleReconnect (delayMs : Nat)
  | startProcessor
  deriving DecidableEq, Repr

/-- The `connection.update` handler (whatsapp-client.js lines 335-369): on
`close`, clear the connected flags and, if `shouldReconnect` and
`reconnectAttempts < maxReconnectAttempts`, increment `reconnectAttempts`
and schedule `connect()` after `reconnectInterval * reconnectAttempts`;
on `open`, set connected, reset `reconnectAttempts` to 0, clear the QR
code and start the message processor. -/
def connUpdate (cfg : ConnConfig) (s : ConnState) : ConnEvent → ConnState × List ConnAction
  | .gotQr code => ({ s with qrCode := some code }, [])
  | .closed shouldReconnect =>
    let s1 := { s with isConnected := false, isConnecting := false }
    if shouldReconnect = true ∧ s1.reconnectAttempts < cfg.maxReconnectAttempts then
      let s2 := { s1 with reconnectAttempts := s1.reconnectAttempts + 1 }
      (s2, [.scheduleReconnect (cfg.reconnectInterval * s2.reconnectAttempts)])
    else
      (s1, [])
  | .opened =>
    let s1 := { s with isConnected := true, isConnecting := false }
    ({ s1 with reconnectAttempts := 0, qrCode := none }, [.startProcessor])

/-- The connection state reached from the constructor state after a
sequence of `connection.update` events. -/
def runConn (cfg : ConnConfig) (evs : List ConnEvent) : ConnState :=
  evs.foldl (fun s e => (connUpdate cfg s e).1) initConnState

/-- One `connection.update` step keeps `reconnectAttempts` at or below
`maxReconnectAttempts`. -/
theorem connUpdate_attempts_le (cfg : ConnConfig) (s : ConnState) (e : ConnEvent)
    (h : s.reconnectAttempts ≤ cfg.maxReconnectAttempts) :
    (connUpdate cfg s e).1.reconnectAttempts ≤ cfg.maxReconnectAttempts := by
  cases e with
  | gotQr code => simpa [connUpdate] using h
  | closed b =>
    simp only [connUpdate]
    split_ifs with hc
    · simp only []
      omega
    · simpa using h
  | opened => simp [connUpdate]

/-- `reconnectAttempts` stays bounded along any event sequence starting at
or below the bound. -/
theorem foldl_connUpdate_attempts_le (cfg : ConnConfig) (evs : List ConnEvent) :
    ∀ s : ConnState, s.reconnectAttempts ≤ cfg.maxReconnectAttempts →
      (evs.foldl (fun s e => (connUpdate cfg s e).1) s).reconnectAttempts ≤
        cfg.maxReconnectAttempts := by
  induction evs with
  | nil => intro s h; simpa using h
  | cons e rest ih =>
    intro s h
    simp only [List.foldl_cons]
    exact ih _ (connUpdate_attempts_le cfg s e h)

/-- Claim C3: in every state of the connection machine reachable from the
constructor state by `connection.update` events, `reconnectAttempts` is at
most `maxReconnectAttempts`; the close handler schedules a reconnect only
when `reconnectAttempts` is strictly below `maxReconnectAttempts`; and a
transition to the open (connected) state resets `reconnectAttempts` to 0
while setting `isConnected`. -/
theorem connection_reconnect_invariants (cfg : ConnConfig) (evs : List ConnEvent) :
    (runConn cfg evs).reconnectAttempts ≤ cfg.maxReconnectAttempts ∧
    (∀ (s : ConnState) (b : Bool) (d : Nat),
      ConnAction.scheduleReconnect d ∈ (connUpdate cfg s (.closed b)).2 →
        s.reconnectAttempts < cfg.maxReconnectAttempts) ∧
    (∀ s : ConnState, (connUpdate cfg s .opened).1.reconnectAttempts = 0 ∧
      (connUpdate cfg s .opened).1.isConnected = true) := by
  refine ⟨?_, ?_, ?_⟩
  · exact foldl_connUpdate_attempts_le cfg evs initConnState (Nat.zero_le _)
  · intro s b d hm
    revert hm
    simp only [connUpdate]
    split_ifs with hc
    · intro _
      exact hc.2
    · intro hm
      simp at hm
  · intro s
    simp [connUpdate]

/-- Witness for claim C3: with the config.js values, after one transient
close the attempt counter is within the bound, the initial state may
schedule a reconnect, and an open event resets the counter. -/
theorem connection_reconnect_invariants_witness :
    (runConn baileysConfig [ConnEvent.closed true]).reconnectAttempts ≤
        baileysConfig.maxReconnectAttempts ∧
    initConnState.reconnectAttempts < baileysConfig.maxReconnectAttempts ∧
    (connUpdate baileysConfig initConnState ConnEvent.opened).1.reconnectAttempts = 0 :=
  ⟨(connection_reconnect_invariants baileysConfig [ConnEvent.closed true]).1,
   (connection_reconnect_invariants baileysConfig []).2.1 initConnState true 5000 (by decide),
   ((connection_reconnect_invariants baileysConfig []).2.2 initConnState).1⟩

/-- An inbound `whatsapp-web.js` message event as consumed by
`WhatsAppClient.handleMessage`: its serialized ids, `body` (absent or a
string; the empty string is falsy in JS), the `fromMe` flag, and the
resolved chat/contact data that `message.getChat()` / `getContact()`
return for it. -/
structure Msg where
  messageId : String
  body : Option String
  fromMe : Bool
  chatId : String
  chatName : Option String
  chatIsGroup : Bool
  chatParticipants : Option Nat
  senderId : String
  senderName : String
  deriving DecidableEq, Repr

/-- A row of the `reports` table (`message_id` is UNIQUE); the content is
kept as the character list truncated by `substring(0, 1000)`. -/
structure ReportRecord where
  messageId : String
  chatId : String
  chatName : String
  chatType : String
  senderId : String
  senderName : String
  messageContent : List Char
  reportType : ReportType
  severity : Nat
  deriving DecidableEq, Repr

/-- A row of the `channels` table (`chat_id` is UNIQUE). -/
structure ChannelRecord where
  chatId : String
  chatName : String
  chatType : String
  participantCount : Nat
  reportsCount : Nat
  deriving DecidableEq, Repr

/-- The persistent database state: the `reports` rows in insertion order,
the `channels` rows, and the next AUTOINCREMENT report id (`lastID`
starts at 1, so a resolved id is always truthy in JS). -/
structure DB where
  reports : List ReportRecord
  channels : List ChannelRecord
  nextReportId : Nat
  deriving DecidableEq, Repr

/-- The freshly initialised database. -/
def DB.empty : DB := { reports := [], channels := [], nextReportId := 1 }

/-- `Database.addReport` (database duplicate-tolerant version): INSERT the
report row; on the `message_id` UNIQUE-constraint violation
(`SQLITE_CONSTRAINT_UNIQUE`) resolve `null` and leave the table unchanged
(a successful no-op, not a rejection); otherwise resolve `this.lastID`. -/
def addReport (db : DB) (r : ReportRecord) : Option Nat × DB :=
  if db.reports.any fun ex => ex.messageId == r.messageId then
    (none, db)
  else
    (some db.nextReportId,
      { db with reports := db.reports ++ [r], nextReportId := db.nextReportId + 1 })

/-- `Database.incrementChannelReports`: UPDATE the `channels` rows matching
`chat_id`, adding 1 to `reports_count`. -/
def incrementChannelReports (db : DB) (chatId : String) : DB :=
  { db with channels := db.channels.map fun c =>
      if c.chatId == chatId then { c with reportsCount := c.reportsCount + 1 } else c }

/-- The `reports_count` visible for a chat (0 when the chat has no row),
i.e. `COALESCE((SELECT reports_count FROM channels WHERE chat_id = ?), 0)`. -/
def channelReportsCount (db : DB) (cid : String) : Nat :=
  match db.channels.find? fun c => c.chatId == cid with
  | some c => c.reportsCount
  | none => 0

/-- `Database.upsertChannel`: INSERT OR REPLACE the row keyed by `chat_id`,
keeping `COALESCE((SELECT reports_count ...), 0)` — the existing
`reports_count` is preserved, a new row starts at 0. -/
def upsertChannel (db : DB) (chatId chatName chatType : String)
    (participantCount : Nat) : DB :=
  { db with channels :=
      (db.channels.filter fun c => !(c.chatId == chatId)) ++
        [{ chatId := chatId, chatName := chatName, chatType := chatType,
           participantCount := participantCount,
           reportsCount := channelReportsCount db chatId }] }

/-- The `reportData` object built by `WhatsAppClient.handleReport`:
`chat.name || 'Private Chat'`, `'group'`/`'private'` by `chat.isGroup`,
and the body truncated to 1000 characters. -/
def reportDataOf (m : Msg) (body : String) (analysis : Analysis) : ReportRecord :=
  { messageId := m.messageId
    chatId := m.chatId
    chatName := m.chatName.getD "Private Chat"
    chatType := if m.chatIsGroup then "group" else "private"
    senderId := m.senderId
    senderName := m.senderName
    messageContent := body.toList.take 1000
    reportType := analysis.reportType
    severity := analysis.severity }

/-- `WhatsAppClient.handleReport` (whatsapp-client.js lines 142-166):
persist the report; only when `addReport` resolved a (truthy) id,
increment the chat's report counter. -/
def handleReport (db : DB) (m : Msg) (body : String) (analysis : Analysis) : DB :=
  match addReport db (reportDataOf m body analysis) with
  | (some _, db2) => incrementChannelReports db2 m.chatId
  | (none, db2) => db2

/-- `WhatsAppClient.updateChannelInfo`: upsert the chat row with the
participant count (`chat.participants.length` for groups with a
participant list, else 0). -/
def updateChannelInfo (db : DB) (m : Msg) : DB :=
  let participantCount : Nat :=
    if m.chatIsGroup then m.chatParticipants.getD 0 else 0
  upsertChannel db m.chatId (m.chatName.getD "Private Chat")
    (if m.chatIsGroup then "group" else "private") participantCount

/-- JS falsiness of `message.body`: absent or the empty string. -/
def bodyFalsy : Option String → Bool
  | none => true
  | some s => s == ""

/-- `WhatsAppClient.handleMessage` (whatsapp-client.js lines 97-110):
return immediately when `!message.body || message.fromMe`; otherwise
upsert the chat, classify the body, and when the classification is a
report run `handleReport`. -/
def handleMessage (db : DB) (m : Msg) : DB :=
  if bodyFalsy m.body || m.fromMe then db
  else
    let body := m.body.getD ""
    let db1 := updateChannelInfo db m
    let analysis := analyzeMessage body
    if analysis.isReport then handleReport db1 m body analysis else db1

/-- A processing failure raised while handling one event (classification or
persistence failure). -/
structure ProcessingError where
  reason : String
  deriving Repr

/-- `WhatsAppClient.processMessageQueue` (whatsapp-client.js lines 81-95)
over a fixed arrival sequence, for an arbitrary per-event handler: events
are removed one at a time from the head (`shift()`), each is handled to
completion inside `try`/`catch`, an error leaves the state unchanged and
the loop proceeds with the remaining queue. -/
def processQueue (handler : DB → Msg → Except ProcessingError DB) :
    DB → List Msg → DB
  | db, [] => db
  | db, m :: rest =>
    match handler db m with
    | Except.ok db2 => processQueue handler db2 rest
    | Except.error _ => processQueue handler db rest

/-- The sequential processor instantiated with the real (non-throwing in
this pure model) `handleMessage` step. -/
def processAll (db : DB) (msgs : List Msg) : DB :=
  processQueue (fun db m => Except.ok (handleMessage db m)) db msgs

/-- Claim C10: for an inbound event whose body is empty or absent, or whose
`fromMe` flag is set, `handleMessage` returns without any effect — the
persistent state after processing is identical to the state before, so no
chat is upserted, no report is created and no counter changes. -/
theorem handleMessage_guard_no_effect (db : DB) (m : Msg)
    (h : bodyFalsy m.body = true ∨ m.fromMe = true) :
    handleMessage db m = db := by
  rcases h with h | h <;> simp [handleMessage, h]

/-- Witness for claim C10: a `fromMe` event with a nonempty body leaves the
empty database untouched. -/
theorem handleMessage_guard_no_effect_witness :
    handleMessage DB.empty
      { messageId := "m0", body := some "report", fromMe := true, chatId := "c0",
        chatName := none, chatIsGroup := false, chatParticipants := none,
        senderId := "s0", senderName := "Ann" } = DB.empty :=
  handleMessage_guard_no_effect DB.empty _ (Or.inr rfl)

/-- Claim C5: when the handler for the head event fails, the consume loop
catches the failure, drops the event without retrying or re-enqueueing it,
leaves the database and the remaining queue unchanged, and continues
processing exactly the remaining events — a single failing event never
terminates the loop. -/
theorem processQueue_error_continues (handler : DB → Msg → Except ProcessingError DB)
    (db : DB) (m : Msg) (rest : List Msg) (e : ProcessingError)
    (h : handler db m = Except.error e) :
    processQueue handler db (m :: rest) = processQueue handler db rest := by
  simp [processQueue, h]

/-- A handler whose persistence step always fails. -/
def alwaysFailingHandler : DB → Msg → Except ProcessingError DB :=
  fun _ _ => Except.error { reason := "persistence failure" }

/-- Witness for claim C5: a queue whose head event fails is processed
exactly like the queue without that event. -/
theorem processQueue_error_continues_witness :
    processQueue alwaysFailingHandler DB.empty
        [{ messageId := "m0", body := some "report", fromMe := false, chatId := "c0",
           chatName := none, chatIsGroup := false, chatParticipants := none,
           senderId := "s0", senderName := "Ann" }] =
      processQueue alwaysFailingHandler DB.empty [] :=
  processQueue_error_continues alwaysFailingHandler DB.empty _ []
    { reason := "persistence failure" } rfl

/-- Filtering out the rows keyed by `x` leaves no row that `find?` can
match with key `x`. -/
theorem find_self_filter_none (l : List ChannelRecord) (x : String) :
    ((l.filter fun c => !(c.chatId == x)).find? fun c => c.chatId == x) = none := by
  induction l with
  | nil => rfl
  | cons h t ih =>
    cases hx : h.chatId == x <;> simp [List.filter_cons, hx, List.find?_cons, ih]

/-- `find?` over an append skips the left part when it finds nothing there. -/
theorem find_append_none_left {α : Type} (p : α → Bool) (l1 l2 : List α)
    (h : l1.find? p = none) : (l1 ++ l2).find? p = l2.find? p := by
  induction l1 with
  | nil => simp
  | cons a t ih =>
    cases ha : p a with
    | true => simp [List.find?_cons, ha] at h
    | false =>
      simp only [List.find?_cons, ha] at h
      simpa [List.find?_cons, ha] using ih h

/-- `find?` over an append ignores the right part when nothing there
matches. -/
theorem find_append_none_right {α : Type} (p : α → Bool) (l1 l2 : List α)
    (h : l2.find? p = none) : (l1 ++ l2).find? p = l1.find? p := by
  induction l1 with
  | nil => simpa using h
  | cons a t ih =>
    cases ha : p a <;> simp [List.find?_cons, ha, ih]

/-- Filtering out the rows keyed by `x` does not change what `find?` sees
for a different key `cid`. -/
theorem find_filter_other (l : List ChannelRecord) (x cid : String)
    (hne : (x == cid) = false) :
    ((l.filter fun c => !(c.chatId == x)).find? fun c => c.chatId == cid) =
      l.find? fun c => c.chatId == cid := by
  induction l with
  | nil => rfl
  | cons h t ih =>
    cases hx : h.chatId == x with
    | true =>
      have hxe : h.chatId = x := by simpa using hx
      have hcid : (h.chatId == cid) = false := by rw [hxe]; exact hne
      simp [List.filter_cons, hx, List.find?_cons, hcid, ih]
    | false =>
      cases hcid : h.chatId == cid <;>
        simp [List.filter_cons, hx, List.find?_cons, hcid, ih]

/-- `upsertChannel` never changes the `reports_count` seen for any chat:
the replaced row carries the old count forward and other rows are left in
place. -/
theorem channelReportsCount_upsert (db : DB) (x cn ct : String) (pc : Nat)
    (cid : String) :
    channelReportsCount (upsertChannel db x cn ct pc) cid =
      channelReportsCount db cid := by
  cases hx : x == cid with
  | true =>
    have hxe : x = cid := by simpa using hx
    subst hxe
    show channelReportsCount (upsertChannel db x cn ct pc) x = channelReportsCount db x
    simp only [channelReportsCount, upsertChannel]
    rw [find_append_none_left _ _ _ (find_self_filter_none db.channels x)]
    simp [List.find?_cons, channelReportsCount]
  | false =>
    have hnew : ∀ rc : Nat, (([ChannelRecord.mk x cn ct pc rc]).find?
          fun c => c.chatId == cid) = none := by
      intro rc
      simp [List.find?_cons, hx]
    simp only [channelReportsCount, upsertChannel]
    rw [find_append_none_right _ _ _ (hnew _), find_filter_other db.channels x cid hx]

/-- `updateChannelInfo` touches only the `channels` table. -/
theorem updateChannelInfo_reports (db : DB) (m : Msg) :
    (updateChannelInfo db m).reports = db.reports := rfl

/-- `updateChannelInfo` preserves every chat's report counter. -/
theorem channelReportsCount_updateChannelInfo (db : DB) (m : Msg) (cid : String) :
    channelReportsCount (updateChannelInfo db m) cid = channelReportsCount db cid := by
  simp only [updateChannelInfo]
  exact channelReportsCount_upsert db m.chatId _ _ _ cid

/-- `addReport` on a report whose `message_id` already exists resolves
`null` and leaves the database unchanged. -/
theorem addReport_dup_none (db : DB) (r : ReportRecord)
    (hdup : (db.reports.any fun ex => ex.messageId == r.messageId) = true) :
    addReport db r = (none, db) := by
  simp [addReport, hdup]

/-- `handleReport` on a message whose id was already persisted is a no-op:
the null id from `addReport` skips the counter increment. -/
theorem handleReport_dup (db : DB) (m : Msg) (body : String) (analysis : Analysis)
    (hdup : (db.reports.any fun ex => ex.messageId == m.messageId) = true) :
    handleReport db m body analysis = db := by
  have h1 : addReport db (reportDataOf m body analysis) = (none, db) :=
    addReport_dup_none db _ (by simpa [reportDataOf] using hdup)
  simp [handleReport, h1]

/-- Claim C2: for an event whose `messageId` equals the id of an
already-persisted report, processing creates no new `ReportRecord` and
performs no per-chat report-counter increment: `addReport` resolves `null`
(`none`, a successful no-op rather than a rejection), `handleReport` leaves
the database unchanged because it increments only on a truthy id, and a
full `handleMessage` pass leaves both the `reports` table and every chat's
report counter exactly as they were. -/
theorem duplicate_event_idempotent (db : DB) (m : Msg) (body : String)
    (analysis : Analysis)
    (hdup : (db.reports.any fun ex => ex.messageId == m.messageId) = true) :
    (addReport db (reportDataOf m body analysis)).1 = none ∧
    handleReport db m body analysis = db ∧
    (handleMessage db m).reports = db.reports ∧
    ∀ cid : String,
      channelReportsCount (handleMessage db m) cid = channelReportsCount db cid := by
  have hdup1 : ((updateChannelInfo db m).reports.any
      fun ex => ex.messageId == m.messageId) = true := by
    rw [updateChannelInfo_reports]; exact hdup
  refine ⟨?_, handleReport_dup db m body analysis hdup, ?_, ?_⟩
  · rw [addReport_dup_none db _ (by simpa [reportDataOf] using hdup)]
  · cases hg : bodyFalsy m.body || m.fromMe with
    | true => simp [handleMessage, hg]
    | false =>
      cases hr : (analyzeMessage (m.body.getD "")).isReport with
      | true =>
        simp [handleMessage, hg, hr,
          handleReport_dup (updateChannelInfo db m) m _ _ hdup1,
          updateChannelInfo_reports]
      | false => simp [handleMessage, hg, hr, updateChannelInfo_reports]
  · intro cid
    cases hg : bodyFalsy m.body || m.fromMe with
    | true => simp [handleMessage, hg]
    | false =>
      cases hr : (analyzeMessage (m.body.getD "")).isReport with
      | true =>
        simp [handleMessage, hg, hr,
          handleReport_dup (updateChannelInfo db m) m _ _ hdup1,
          channelReportsCount_updateChannelInfo]
      | false =>
        simp [handleMessage, hg, hr, channelReportsCount_updateChannelInfo]

/-- Draining the empty queue does nothing. -/
@[simp] theorem processAll_nil (db : DB) : processAll db [] = db := rfl

/-- The processor removes one event from the head and handles it to
completion before touching the rest of the queue. -/
@[simp] theorem processAll_cons (db : DB) (m : Msg) (l : List Msg) :
    processAll db (m :: l) = processAll (handleMessage db m) l := rfl

/-- Sequential draining splits over concatenated arrival sequences. -/
theorem processAll_append (db : DB) (l1 l2 : List Msg) :
    processAll db (l1 ++ l2) = processAll (processAll db l1) l2 := by
  induction l1 generalizing db with
  | nil => simp
  | cons m rest ih => simp [ih]

/-- `handleReport` only ever appends to the `reports` table. -/
theorem handleReport_reports_extend (db : DB) (m : Msg) (body : String)
    (analysis : Analysis) :
    ∃ t, (handleReport db m body analysis).reports = db.reports ++ t := by
  by_cases h :
      (db.reports.any fun ex => ex.messageId == (reportDataOf m body analysis).messageId) = true
  · exact ⟨[], by simp [handleReport, addReport, h]⟩
  · refine ⟨[reportDataOf m body analysis], ?_⟩
    simp [handleReport, addReport, h, incrementChannelReports]

/-- One `handleMessage` step only ever appends to the `reports` table. -/
theorem handleMessage_reports_extend (db : DB) (m : Msg) :
    ∃ t, (handleMessage db m).reports = db.reports ++ t := by
  cases hg : bodyFalsy m.body || m.fromMe with
  | true => exact ⟨[], by simp [handleMessage, hg]⟩
  | false =>
    cases hr : (analyzeMessage (m.body.getD "")).isReport with
    | true =>
      obtain ⟨t, ht⟩ := handleReport_reports_extend (updateChannelInfo db m) m
        (m.body.getD "") (analyzeMessage (m.body.getD ""))
      exact ⟨t, by simp [handleMessage, hg, hr, ht, updateChannelInfo_reports]⟩
    | false => exact ⟨[], by simp [handleMessage, hg, hr, updateChannelInfo_reports]⟩

/-- Draining any arrival sequence only ever appends to the `reports`
table, in processing order. -/
theorem processAll_reports_extend (db : DB) (l : List Msg) :
    ∃ t, (processAll db l).reports = db.reports ++ t := by
  induction l generalizing db with
  | nil => exact ⟨[], by simp⟩
  | cons m rest ih =>
    obtain ⟨t1, h1⟩ := handleMessage_reports_extend db m
    obtain ⟨t2, h2⟩ := ih (handleMessage db m)
    exact ⟨t1 ++ t2, by simp [h2, h1]⟩

/-- Claim C4: the sequential processor preserves arrival order in the
persisted report sequence.  For an arrival sequence split as `l1 ++ l2`:
any report `r1` already persisted after draining `l1` (e.g. the report of
an event `e1` in `l1`) occurs strictly before any report `r2` that only
appears after the later events `l2` are drained (e.g. the report of an
event `e2` arriving after `e1`), regardless of per-event processing —
events are removed one at a time from the head and fully processed in
order. -/
theorem processing_preserves_arrival_order (db : DB) (l1 l2 : List Msg)
    (r1 r2 : ReportRecord)
    (h1 : r1 ∈ (processAll db l1).reports)
    (h2 : r2 ∈ (processAll db (l1 ++ l2)).reports)
    (h3 : r2 ∉ (processAll db l1).reports) :
    ∃ p q s : List ReportRecord,
      (processAll db (l1 ++ l2)).reports = p ++ (r1 :: q) ++ (r2 :: s) := by
  rw [processAll_append] at h2 ⊢
  obtain ⟨t, ht⟩ := processAll_reports_extend (processAll db l1) l2
  rw [ht] at h2 ⊢
  have hr2t : r2 ∈ t := by
    rcases List.mem_append.mp h2 with h | h
    · exact absurd h h3
    · exact h
  obtain ⟨p, q, hpq⟩ := List.append_of_mem h1
  obtain ⟨u, v, huv⟩ := List.append_of_mem hr2t
  refine ⟨p, q ++ u, v, ?_⟩
  rw [hpq, huv]
  simp

/-- A first inbound report event (keyword `spam`, group chat `c1`). -/
def msgSpam : Msg :=
  { messageId := "m1", body := some "spam", fromMe := false, chatId := "c1",
    chatName := some "Group One", chatIsGroup := true, chatParticipants := some 3,
    senderId := "s1", senderName := "Alice" }

/-- A second inbound report event (keyword `report`, same chat). -/
def msgReport : Msg :=
  { messageId := "m2", body := some "report", fromMe := false, chatId := "c1",
    chatName := some "Group One", chatIsGroup := true, chatParticipants := some 3,
    senderId := "s2", senderName := "Bob" }

/-- The report row persisted for `msgSpam`. -/
def recSpam : ReportRecord := reportDataOf msgSpam "spam" (analyzeMessage "spam")

/-- The report row persisted for `msgReport`. -/
def recReport : ReportRecord := reportDataOf msgReport "report" (analyzeMessage "report")

/-- Witness for claim C4: with `msgSpam` arriving before `msgReport`,
`msgSpam`'s persisted report occurs before `msgReport`'s. -/
theorem processing_preserves_arrival_order_witness :
    recSpam ∈ (processAll DB.empty [msgSpam]).reports ∧
    recReport ∈ (processAll DB.empty ([msgSpam] ++ [msgReport])).reports ∧
    recReport ∉ (processAll DB.empty [msgSpam]).reports ∧
    ∃ p q s : List ReportRecord,
      (processAll DB.empty ([msgSpam] ++ [msgReport])).reports =
        p ++ (recSpam :: q) ++ (recReport :: s) := by
  have h1 : recSpam ∈ (processAll DB.empty [msgSpam]).reports := by decide
  have h2 : recReport ∈ (processAll DB.empty ([msgSpam] ++ [msgReport])).reports := by decide
  have h3 : recReport ∉ (processAll DB.empty [msgSpam]).reports := by decide
  exact ⟨h1, h2, h3,
    processing_preserves_arrival_order DB.empty [msgSpam] [msgReport] recSpam recReport h1 h2 h3⟩

/-- The database state after the first spam report was persisted. -/
def dbWithSpam : DB := processAll DB.empty [msgSpam]

/-- Witness for claim C2: re-delivering `msgSpam` against the state that
already persisted it resolves `null` from `addReport`, leaves the database
unchanged through `handleReport`, and a full `handleMessage` pass changes
neither the reports nor chat `c1`'s counter. -/
theorem duplicate_event_idempotent_witness :
    (dbWithSpam.reports.any fun ex => ex.messageId == msgSpam.messageId) = true ∧
    (addReport dbWithSpam (reportDataOf msgSpam "spam" (analyzeMessage "spam"))).1 = none ∧
    handleReport dbWithSpam msgSpam "spam" (analyzeMessage "spam") = dbWithSpam ∧
    (handleMessage dbWithSpam msgSpam).reports = dbWithSpam.reports ∧
    channelReportsCount (handleMessage dbWithSpam msgSpam) "c1" =
      channelReportsCount dbWithSpam "c1" := by
  have hdup : (dbWithSpam.reports.any fun ex => ex.messageId == msgSpam.messageId) = true := by
    decide
  obtain ⟨ha, hb, hc, hd⟩ :=
    duplicate_event_idempotent dbWithSpam msgSpam "spam" (analyzeMessage "spam") hdup
  exact ⟨hdup, ha, hb, hc, hd "c1"⟩

end WhatsAppBot
